import Mathlib

/-!
Verification development for the personal-crm repository.

The relational state of `schema.sql` is embedded as lists of rows; the
Express endpoints of the API server (health, contacts, overdue, details,
stats, recent, record) are embedded as pure functions over that state.
SQL `TIMESTAMP` values are modelled as natural numbers (seconds); `NOW()`
inside a transaction is a single `now : Nat` argument, constant across the
statements of that transaction, matching PostgreSQL semantics.
-/

namespace CRM

/-- Row of the `contacts` table (schema.sql lines 5-14). -/
structure Contact where
  id : Nat
  name : String
  phone_number : Option String
  email : Option String
  relationship_type : Option String
  last_interaction_date : Option Nat
  created_at : Nat
  updated_at : Nat
deriving DecidableEq

/-- Row of the `interaction_types` reference table (schema.sql lines 17-21). -/
structure InteractionType where
  id : Nat
  type_name : String
  description : Option String
deriving DecidableEq

/-- Row of the `interactions` log table (schema.sql lines 24-34). -/
structure Interaction where
  id : Nat
  contact_id : Nat
  interaction_type_id : Nat
  direction : Option String
  timestamp : Nat
  duration_seconds : Option Int
  subject : Option String
  notes : Option String
  created_at : Nat
deriving DecidableEq

/-- The database: the three tables the endpoints touch, plus the SERIAL
counters. (`relationship_goals` is never read or written by the server,
so it is omitted.) -/
structure DB where
  contacts : List Contact
  interaction_types : List InteractionType
  interactions : List Interaction
  next_contact_id : Nat
  next_type_id : Nat
  next_interaction_id : Nat
deriving DecidableEq

/-- The seven (type_name, description) pairs inserted by schema.sql lines 52-60. -/
def seedTypeRows : List (String × String) :=
  [("phone_call", "Voice call"),
   ("facetime_audio", "FaceTime audio call"),
   ("facetime_video", "FaceTime video call"),
   ("sms", "Text message"),
   ("imessage", "iMessage"),
   ("email", "Email"),
   ("calendar_meeting", "Calendar meeting")]

/-- One `INSERT ... ON CONFLICT (type_name) DO NOTHING`: if a row with the
same `type_name` exists the statement is a no-op, otherwise the row is
appended with a fresh id. -/
def insertTypeRow (db : DB) (row : String × String) : DB :=
  if db.interaction_types.any (fun t => t.type_name == row.1) then db
  else
    { db with
      interaction_types := db.interaction_types ++
        [{ id := db.next_type_id, type_name := row.1, description := some row.2 }],
      next_type_id := db.next_type_id + 1 }

/-- Running the idempotent seed block of schema.sql (lines 52-60). -/
def runSchemaSeed (db : DB) : DB :=
  seedTypeRows.foldl insertTypeRow db

/-- A database with empty tables and fresh SERIAL counters. -/
def emptyDB : DB :=
  { contacts := [], interaction_types := [], interactions := [],
    next_contact_id := 1, next_type_id := 1, next_interaction_id := 1 }

/-- The state after creating the schema and running the seed once. -/
def initialDB : DB := runSchemaSeed emptyDB

/-- Running the seed block `n` further times (for the idempotence claim). -/
def seedIter : Nat → DB → DB
  | 0, db => db
  | n + 1, db => seedIter n (runSchemaSeed db)

/-- Error outcomes of the endpoints, by the JSON error payload they produce. -/
inductive ApiError where
  | invalidArgument (msg : String)
  | notFound (msg : String)
  | unknownInteractionType (t : String)
  | sqlError (msg : String)
deriving DecidableEq

instance {ε α : Type} [DecidableEq ε] [DecidableEq α] : DecidableEq (Except ε α) :=
  fun a b =>
    match a, b with
    | .error e, .error f => decidable_of_iff (e = f) (by simp)
    | .ok x, .ok y => decidable_of_iff (x = y) (by simp)
    | .error _, .ok _ => isFalse (fun h => by cases h)
    | .ok _, .error _ => isFalse (fun h => by cases h)

/-- JavaScript truthiness test used by `if (!contact_name || !interaction_type)`
(server line 145): a missing field and the empty string are both falsy. -/
def jsFalsyStr : Option String → Bool
  | none => true
  | some s => s == ""

/-- The `direction || null` / `subject || null` coercion of server line 189:
a falsy value (absent or empty string) becomes SQL NULL. -/
def jsOrNullStr : Option String → Option String
  | none => none
  | some s => if s == "" then none else some s

/-- The `duration_seconds || null` coercion of server line 189: absent or 0
becomes SQL NULL (0 is falsy in JavaScript). -/
def jsOrNullInt : Option Int → Option Int
  | none => none
  | some v => if v == 0 then none else some v

/-- JavaScript `parseInt` on a decimal string: skip leading spaces, optional
sign, then the longest digit prefix; `none` models NaN (no digits). -/
def jsParseInt (s : String) : Option Int :=
  let cs := s.toList.dropWhile (fun c => c == ' ')
  let signRest : Int × List Char :=
    match cs with
    | '-' :: r => (-1, r)
    | '+' :: r => (1, r)
    | r => (1, r)
  let digits := signRest.2.takeWhile (fun c => c.isDigit)
  if digits.isEmpty then none
  else some (signRest.1 * (Nat.cast (digits.foldl (fun a c => a * 10 + (c.toNat - 48)) 0)))

/-- Seconds per day, for `INTERVAL '1 day'` arithmetic and
`EXTRACT(DAY FROM ...)`. -/
def secondsPerDay : Nat := 86400

/-- Request body of `POST /api/interactions`. The endpoint destructures only
`contact_name`, `interaction_type`, `direction`, `duration_seconds` and
`subject` (server line 143); a `timestamp` field may be present in the JSON
body but is never read. -/
structure InteractionRequest where
  contact_name : Option String
  interaction_type : Option String
  direction : Option String
  duration_seconds : Option Int
  subject : Option String
  timestamp : Option Nat
deriving DecidableEq

/-- The `UPDATE contacts SET last_interaction_date = NOW(), updated_at =
NOW() WHERE id = $1` statement of server lines 193-196, applied to one row. -/
def touchContact (cid now : Nat) (c : Contact) : Contact :=
  if c.id == cid then
    { c with last_interaction_date := some now, updated_at := now }
  else c

/-- The `POST /api/interactions` endpoint (server lines 141-215). The whole
body runs in one transaction: the intermediate states built below are
visible to the caller only on the `.ok` path (COMMIT); every `.error`
return leaves the caller's database untouched (ROLLBACK). -/
def recordInteraction (db : DB) (req : InteractionRequest) (now : Nat) :
    Except ApiError (DB × Interaction) :=
  if jsFalsyStr req.contact_name || jsFalsyStr req.interaction_type then
    .error (.invalidArgument ("contact_name and interaction_type are required"))
  else
    let cname := req.contact_name.getD ""
    let itype := req.interaction_type.getD ""
    -- Get or create contact (server lines 154-169)
    let resolved : DB × Nat :=
      match db.contacts.find? (fun c => c.name == cname) with
      | some c => (db, c.id)
      | none =>
        let c : Contact :=
          { id := db.next_contact_id, name := cname, phone_number := none,
            email := none, relationship_type := some ("unknown"),
            last_interaction_date := none, created_at := now, updated_at := now }
        ({ db with contacts := db.contacts ++ [c],
                   next_contact_id := db.next_contact_id + 1 }, c.id)
    let db1 := resolved.1
    let contactId := resolved.2
    -- Look up interaction type (server lines 172-179)
    match db1.interaction_types.find? (fun t => t.type_name == itype) with
    | none => .error (.unknownInteractionType itype)
    | some t =>
      -- Insert interaction with timestamp NOW() (server lines 184-190)
      let inter : Interaction :=
        { id := db1.next_interaction_id, contact_id := contactId,
          interaction_type_id := t.id, direction := jsOrNullStr req.direction,
          timestamp := now, duration_seconds := jsOrNullInt req.duration_seconds,
          subject := jsOrNullStr req.subject, notes := none, created_at := now }
      let db2 :=
        { db1 with interactions := db1.interactions ++ [inter],
                   next_interaction_id := db1.next_interaction_id + 1 }
      -- Update contact's last interaction date to NOW() (server lines 193-196)
      let db3 :=
        { db2 with contacts := db2.contacts.map (touchContact contactId now) }
      .ok (db3, inter)

/-- The database visible after the request: the committed state on success,
the unchanged state after a rollback. -/
def applyRecord (db : DB) (req : InteractionRequest) (now : Nat) : DB :=
  match recordInteraction db req now with
  | .ok (db', _) => db'
  | .error _ => db

/-- The interaction row returned by a successful request, if any. -/
def recordResultRow (db : DB) (req : InteractionRequest) (now : Nat) :
    Option Interaction :=
  match recordInteraction db req now with
  | .ok (_, i) => some i
  | .error _ => none

/-- Convenience constructor for a request body. -/
def mkReq (n itype : String) (dir : Option String) (dur : Option Int)
    (subj : Option String) (ts : Option Nat) : InteractionRequest :=
  { contact_name := some n, interaction_type := some itype, direction := dir,
    duration_seconds := dur, subject := subj, timestamp := ts }

/-- Running a sequence of record requests, each with the clock value at which
it arrives. -/
def runAll (db : DB) : List (InteractionRequest × Nat) → DB
  | [] => db
  | (r, t) :: rest => runAll (applyRecord db r t) rest

/-- The interactions belonging to one contact (`WHERE contact_id = $1`). -/
def contactInteractions (db : DB) (cid : Nat) : List Interaction :=
  db.interactions.filter (fun i => i.contact_id == cid)

/-- SQL `MAX(timestamp)` over a set of interactions: NULL on the empty set. -/
def maxOccurrence (l : List Interaction) : Option Nat :=
  (l.map (fun i => i.timestamp)).max?

/-- The derived-field invariant of the spec: every contact's
`last_interaction_date` equals the maximum occurrence timestamp among its
interactions, or NULL if it has none. -/
def lastInvariant (db : DB) : Prop :=
  ∀ c ∈ db.contacts,
    c.last_interaction_date = maxOccurrence (contactInteractions db c.id)

/-- Boolean form of `lastInvariant`, convenient for concrete checks. -/
def lastInvariantB (db : DB) : Bool :=
  db.contacts.all (fun c =>
    c.last_interaction_date == maxOccurrence (contactInteractions db c.id))

/-- All stored occurrence timestamps are at or before the given clock value. -/
def timesLE (db : DB) (now : Nat) : Prop :=
  ∀ i ∈ db.interactions, i.timestamp ≤ now

/-- Check that a list of clock values is non-decreasing (requests arrive in
wall-clock order). -/
def nowsMono : List Nat → Bool
  | a :: b :: rest => decide (a ≤ b) && nowsMono (b :: rest)
  | _ => true

/-! ### Read endpoints -/

/-- Row shape of `GET /api/contacts` (server line 20). -/
structure ContactListRow where
  id : Nat
  name : String
  phone_number : Option String
  email : Option String
  relationship_type : Option String
  last_interaction_date : Option Nat
deriving DecidableEq

/-- Projection used by the contacts list and the overdue list. -/
def contactListRowOf (c : Contact) : ContactListRow :=
  { id := c.id, name := c.name, phone_number := c.phone_number,
    email := c.email, relationship_type := c.relationship_type,
    last_interaction_date := c.last_interaction_date }

/-- SQL ordering `last_interaction_date DESC NULLS LAST` as a Boolean
comparison on the nullable key. -/
def lastDescNullsLast (a b : Option Nat) : Bool :=
  match a, b with
  | none, none => true
  | none, some _ => false
  | some _, none => true
  | some x, some y => decide (y ≤ x)

/-- Ordering on contact rows for `GET /api/contacts`. -/
def contactRowLE (x y : ContactListRow) : Prop :=
  lastDescNullsLast x.last_interaction_date y.last_interaction_date = true

instance : DecidableRel contactRowLE :=
  fun _ _ => inferInstanceAs (Decidable (_ = true))

/-- The `GET /api/contacts` endpoint (server lines 17-27): all contacts
ordered by last interaction descending, nulls last. -/
def listContacts (db : DB) : List ContactListRow :=
  List.insertionSort contactRowLE (db.contacts.map contactListRowOf)

/-- SQL ordering `last_interaction_date ASC NULLS FIRST` as a Boolean
comparison on the nullable key. -/
def lastAscNullsFirst (a b : Option Nat) : Bool :=
  match a, b with
  | none, _ => true
  | some _, none => false
  | some x, some y => decide (x ≤ y)

/-- Row shape of `GET /api/contacts/overdue/:days` (server lines 36-37). -/
structure OverdueRow where
  id : Nat
  name : String
  phone_number : Option String
  email : Option String
  relationship_type : Option String
  last_interaction_date : Option Nat
  days_since_contact : Option Int
deriving DecidableEq

/-- Ordering on overdue rows (`ORDER BY last_interaction_date ASC NULLS
FIRST`, server line 40). -/
def overdueRowLE (x y : OverdueRow) : Prop :=
  lastAscNullsFirst x.last_interaction_date y.last_interaction_date = true

instance : DecidableRel overdueRowLE :=
  fun _ _ => inferInstanceAs (Decidable (_ = true))

/-- PostgreSQL `EXTRACT(DAY FROM a - b)` on two timestamps: the whole-day
part of the interval, truncated toward zero. -/
def extractDaysInterval (a b : Nat) : Int :=
  Int.tdiv ((a : Int) - (b : Int)) (secondsPerDay : Int)

/-- The WHERE clause of the overdue query (server line 39):
`last_interaction_date IS NULL OR last_interaction_date < NOW() - INTERVAL
'1 day' * days`. -/
def overdueCond (days now : Nat) (c : Contact) : Bool :=
  match c.last_interaction_date with
  | none => true
  | some t => decide ((t : Int) < (now : Int) - (secondsPerDay : Int) * (days : Int))

/-- The SELECT list of the overdue query (server lines 36-37):
`days_since_contact` is `EXTRACT(DAY FROM NOW() - last_interaction_date)`,
NULL when the contact was never contacted. -/
def overdueRowOf (now : Nat) (c : Contact) : OverdueRow :=
  { id := c.id, name := c.name, phone_number := c.phone_number,
    email := c.email, relationship_type := c.relationship_type,
    last_interaction_date := c.last_interaction_date,
    days_since_contact :=
      c.last_interaction_date.map (fun t => extractDaysInterval now t) }

/-- The `GET /api/contacts/overdue/:days` endpoint (server lines 31-49). -/
def overdueContacts (db : DB) (days now : Nat) : List OverdueRow :=
  List.insertionSort overdueRowLE
    ((db.contacts.filter (overdueCond days now)).map (overdueRowOf now))

/-- Row shape of the interaction list inside `GET /api/contacts/:id`
(server line 66): interaction fields joined with the type's `type_name`. -/
structure DetailRow where
  id : Nat
  timestamp : Nat
  direction : Option String
  duration_seconds : Option Int
  subject : Option String
  notes : Option String
  type_name : String
deriving DecidableEq

/-- The inner JOIN with `interaction_types` for the details query: a row is
produced only when the referenced type exists. -/
def detailRowOf (db : DB) (i : Interaction) : Option DetailRow :=
  match db.interaction_types.find? (fun t => t.id == i.interaction_type_id) with
  | none => none
  | some t =>
    some { id := i.id, timestamp := i.timestamp, direction := i.direction,
           duration_seconds := i.duration_seconds, subject := i.subject,
           notes := i.notes, type_name := t.type_name }

/-- Ordering `ORDER BY timestamp DESC` on detail rows (server line 70). -/
def detailGE (x y : DetailRow) : Prop :=
  y.timestamp ≤ x.timestamp

instance : DecidableRel detailGE :=
  fun _ _ => inferInstanceAs (Decidable (_ ≤ _))

/-- The `GET /api/contacts/:id` endpoint (server lines 52-82): 404 when no
contact has the id, otherwise the contact row plus its interactions newest
first. -/
def getContactDetails (db : DB) (cid : Nat) :
    Except ApiError (Contact × List DetailRow) :=
  match db.contacts.find? (fun c => c.id == cid) with
  | none => .error (.notFound ("Contact not found"))
  | some c =>
    .ok (c, List.insertionSort detailGE
      ((contactInteractions db cid).filterMap (detailRowOf db)))

/-! ### The stats endpoint and its SQL SELECT list

PostgreSQL rejects an aggregate call whose argument contains another
aggregate of the same query level ("aggregate function calls cannot be
nested", SQLSTATE 42803) during parse analysis, before any row is fetched.
The SELECT list of the stats query (server lines 90-98) is transcribed
below as a small expression tree so that this rule can be checked. -/

/-- SQL scalar expressions as they appear in the stats SELECT list. -/
inductive SqlExpr where
  | col (table column : String)
  | num (n : Int)
  | str (s : String)
  | agg (fn : String) (arg : SqlExpr)
  | fn1 (name : String) (arg : SqlExpr)
  | fn2 (name : String) (a b : SqlExpr)
  | sub (a b : SqlExpr)
  | divE (a b : SqlExpr)
deriving DecidableEq

/-- Whether an expression contains an aggregate call anywhere. -/
def hasAgg : SqlExpr → Bool
  | .col _ _ => false
  | .num _ => false
  | .str _ => false
  | .agg _ _ => true
  | .fn1 _ a => hasAgg a
  | .fn2 _ a b => hasAgg a || hasAgg b
  | .sub a b => hasAgg a || hasAgg b
  | .divE a b => hasAgg a || hasAgg b

/-- PostgreSQL's nesting rule: no aggregate call may appear inside the
argument of another aggregate call of the same query level. -/
def aggNestOk : SqlExpr → Bool
  | .col _ _ => true
  | .num _ => true
  | .str _ => true
  | .agg _ a => !hasAgg a
  | .fn1 _ a => aggNestOk a
  | .fn2 _ a b => aggNestOk a && aggNestOk b
  | .sub a b => aggNestOk a && aggNestOk b
  | .divE a b => aggNestOk a && aggNestOk b

/-- Transcription of the stats SELECT list (server lines 91-98): name, total
count, the two direction counts, MAX, MIN, and the average-cadence
expression `ROUND(AVG(EXTRACT(DAY FROM (MAX(timestamp) - MIN(timestamp)))
/ NULLIF(COUNT(id) - 1, 0)))`. -/
def statsSelectExprs : List SqlExpr :=
  [.col ("c") ("name"),
   .agg ("COUNT") (.col ("i") ("id")),
   .agg ("COUNT") (.fn2 ("CASE_WHEN")
     (.fn2 ("EQ") (.col ("i") ("direction")) (.str ("outgoing"))) (.num 1)),
   .agg ("COUNT") (.fn2 ("CASE_WHEN")
     (.fn2 ("EQ") (.col ("i") ("direction")) (.str ("incoming"))) (.num 1)),
   .agg ("MAX") (.col ("i") ("timestamp")),
   .agg ("MIN") (.col ("i") ("timestamp")),
   .fn1 ("ROUND") (.agg ("AVG") (.divE
     (.fn1 ("EXTRACT_DAY") (.sub
       (.agg ("MAX") (.col ("i") ("timestamp")))
       (.agg ("MIN") (.col ("i") ("timestamp")))))
     (.fn2 ("NULLIF")
       (.sub (.agg ("COUNT") (.col ("i") ("id"))) (.num 1)) (.num 0))))]

/-- Parse analysis of the stats query: true iff every SELECT expression
respects the aggregate-nesting rule. -/
def statsQueryOk : Bool :=
  statsSelectExprs.all aggNestOk

/-- Result row shape documented for `GET /api/contacts/:id/stats`. -/
structure StatsRow where
  name : String
  total_interactions : Nat
  outgoing_count : Nat
  incoming_count : Nat
  last_interaction : Option Nat
  first_interaction : Option Nat
  avg_days_between_interactions : Option Int
deriving DecidableEq

/-- The `GET /api/contacts/:id/stats` endpoint (server lines 85-115). The
query is submitted first; if PostgreSQL rejects it the handler's catch
branch answers 500 and the 404 check (lines 106-108) is never reached.
The `else` branch spells out what the query would compute were it
accepted: aggregates over the contact's interactions, with the average
NULL when `NULLIF(COUNT - 1, 0)` is NULL, and `ROUND` on the non-negative
exact quotient realised as half-up rounding. -/
def getContactStats (db : DB) (cid : Nat) : Except ApiError StatsRow :=
  if statsQueryOk then
    match db.contacts.find? (fun c => c.id == cid) with
    | none => .error (.notFound ("Contact not found"))
    | some c =>
      let is := contactInteractions db cid
      let total := is.length
      let mx := maxOccurrence is
      let mn := (is.map (fun i => i.timestamp)).min?
      let avg : Option Int :=
        match mx, mn with
        | some a, some b =>
          if total - 1 = 0 then none
          else
            let d := (a - b) / secondsPerDay
            let k := total - 1
            some (((2 * d + k) / (2 * k) : Nat) : Int)
        | _, _ => none
      .ok { name := c.name, total_interactions := total,
            outgoing_count :=
              (is.filter (fun i => i.direction == some ("outgoing"))).length,
            incoming_count :=
              (is.filter (fun i => i.direction == some ("incoming"))).length,
            last_interaction := mx, first_interaction := mn,
            avg_days_between_interactions := avg }
  else .error (.sqlError ("aggregate function calls cannot be nested"))

/-- Row shape of `GET /api/interactions/recent/:limit` (server lines
123-124): interaction fields joined with the contact's name and the type's
`type_name`. -/
structure RecentRow where
  id : Nat
  timestamp : Nat
  direction : Option String
  duration_seconds : Option Int
  subject : Option String
  contact_name : String
  type_name : String
deriving DecidableEq

/-- The two inner JOINs of the recent query: a row is produced only when
both the contact and the type referenced by the interaction exist. -/
def recentRowOf (db : DB) (i : Interaction) : Option RecentRow :=
  match db.contacts.find? (fun c => c.id == i.contact_id),
        db.interaction_types.find? (fun t => t.id == i.interaction_type_id) with
  | some c, some t =>
    some { id := i.id, timestamp := i.timestamp, direction := i.direction,
           duration_seconds := i.duration_seconds, subject := i.subject,
           contact_name := c.name, type_name := t.type_name }
  | _, _ => none

/-- Ordering `ORDER BY timestamp DESC` on recent rows (server line 128). -/
def recentGE (x y : RecentRow) : Prop :=
  y.timestamp ≤ x.timestamp

instance : DecidableRel recentGE :=
  fun _ _ => inferInstanceAs (Decidable (_ ≤ _))

/-- The recent feed before `LIMIT` is applied. -/
def recentAll (db : DB) : List RecentRow :=
  List.insertionSort recentGE (db.interactions.filterMap (recentRowOf db))

/-- The `GET /api/interactions/recent/:limit` query for a resolved limit. -/
def recentInteractions (db : DB) (limit : Nat) : List RecentRow :=
  (recentAll db).take limit

/-- The `GET /api/interactions/recent/:limit` endpoint including the
`parseInt(req.params.limit) || 10` coercion of server line 120 (NaN and 0
are falsy, so both fall back to 10) and PostgreSQL's rejection of a
negative LIMIT. -/
def recentEndpoint (db : DB) (limitParam : String) :
    Except ApiError (List RecentRow) :=
  let limit : Int :=
    match jsParseInt limitParam with
    | none => 10
    | some n => if n = 0 then 10 else n
  if limit < 0 then .error (.sqlError ("LIMIT must not be negative"))
  else .ok (recentInteractions db limit.toNat)

/-! ### Helper lemmas -/

/-- Mapping a function that fixes every element of a list is the identity. -/
lemma map_id_of_eq {α : Type} (f : α → α) :
    ∀ l : List α, (∀ x ∈ l, f x = x) → l.map f = l
  | [], _ => rfl
  | x :: xs, h => by
    have hx := h x (List.mem_cons_self x xs)
    have hxs := map_id_of_eq f xs (fun y hy => h y (List.mem_cons_of_mem x hy))
    simp [hx, hxs]

lemma foldl_max_eq (m : List Nat) :
    ∀ x a : Nat, (∀ y ∈ m, y ≤ a) → x ≤ a → (m ++ [a]).foldl max x = a := by
  induction m with
  | nil =>
    intro x a _ hx
    simpa using Nat.max_eq_right hx
  | cons y ys ih =>
    intro x a hm hx
    simp only [List.cons_append, List.foldl_cons]
    exact ih (max x y) a (fun z hz => hm z (List.mem_cons_of_mem y hz))
      (max_le hx (hm y (List.mem_cons_self y ys)))

/-- SQL `MAX` over a set whose members are all at most `a`, extended by `a`,
is `a`. -/
lemma max?_concat_of_le (m : List Nat) (a : Nat) (h : ∀ y ∈ m, y ≤ a) :
    (m ++ [a]).max? = some a := by
  cases m with
  | nil => rfl
  | cons x xs =>
    show some ((xs ++ [a]).foldl max x) = some a
    have hx : x ≤ a := h x (List.mem_cons_self x xs)
    rw [foldl_max_eq xs x a (fun y hy => h y (List.mem_cons_of_mem x hy)) hx]

/-- Structural facts about every committed `POST /api/interactions`: the
inserted row's occurrence timestamp is `NOW()`, it is appended to the
interactions log, and the contacts table is the (possibly extended) old
table with every contact matching the resolved id stamped with
`last_interaction_date = NOW()`. -/
lemma recordInteraction_ok_facts (db : DB) (req : InteractionRequest) (now : Nat)
    (db' : DB) (i : Interaction)
    (h : recordInteraction db req now = .ok (db', i)) :
    i.timestamp = now ∧
    db'.interactions = db.interactions ++ [i] ∧
    ∃ base : DB,
      db'.contacts = base.contacts.map (touchContact i.contact_id now) ∧
      ∀ c ∈ base.contacts, c.id ≠ i.contact_id → c ∈ db.contacts := by
  unfold recordInteraction at h
  by_cases hfal : (jsFalsyStr req.contact_name || jsFalsyStr req.interaction_type) = true
  · rw [if_pos hfal] at h
    cases h
  · rw [if_neg hfal] at h
    cases hf : db.contacts.find? (fun c => c.name == req.contact_name.getD "") with
    | some c0 =>
      simp only [hf] at h
      cases ht : db.interaction_types.find?
          (fun t => t.type_name == req.interaction_type.getD "") with
      | none =>
        simp only [ht] at h
        cases h
      | some t0 =>
        simp only [ht, Except.ok.injEq, Prod.mk.injEq] at h
        obtain ⟨hdb, hi⟩ := h
        subst hdb
        subst hi
        refine ⟨rfl, rfl, db, rfl, fun c hc _ => hc⟩
    | none =>
      simp only [hf] at h
      cases ht : db.interaction_types.find?
          (fun t => t.type_name == req.interaction_type.getD "") with
      | none =>
        simp only [ht] at h
        cases h
      | some t0 =>
        simp only [ht, Except.ok.injEq, Prod.mk.injEq] at h
        obtain ⟨hdb, hi⟩ := h
        subst hdb
        subst hi
        refine ⟨rfl, rfl,
          { db with
            contacts := db.contacts ++
              [{ id := db.next_contact_id, name := req.contact_name.getD "",
                 phone_number := none, email := none,
                 relationship_type := some ("unknown"),
                 last_interaction_date := none, created_at := now,
                 updated_at := now }],
            next_contact_id := db.next_contact_id + 1 }, rfl, ?_⟩
        intro c hc hne
        rcases List.mem_append.mp hc with hold | hnew
        · exact hold
        · exfalso
          apply hne
          simp only [List.mem_singleton] at hnew
          rw [hnew]

/-- Whether the catalog already holds a row with the given `type_name`. -/
def hasTypeName (db : DB) (n : String) : Bool :=
  db.interaction_types.any (fun t => t.type_name == n)

lemma insertTypeRow_noop (db : DB) (row : String × String)
    (h : hasTypeName db row.1 = true) : insertTypeRow db row = db := by
  unfold insertTypeRow
  unfold hasTypeName at h
  simp [h]

lemma hasTypeName_insertTypeRow (db : DB) (row : String × String) (n : String)
    (h : hasTypeName db n = true) : hasTypeName (insertTypeRow db row) n = true := by
  unfold insertTypeRow
  unfold hasTypeName at h ⊢
  split
  · exact h
  · simp only [List.any_append, h, Bool.true_or]

lemma hasTypeName_insertTypeRow_self (db : DB) (row : String × String) :
    hasTypeName (insertTypeRow db row) row.1 = true := by
  unfold insertTypeRow
  unfold hasTypeName
  split
  · assumption
  · simp

lemma foldl_insert_hasTypeName (rows : List (String × String)) (db : DB)
    (n : String) (h : hasTypeName db n = true) :
    hasTypeName (rows.foldl insertTypeRow db) n = true := by
  induction rows generalizing db with
  | nil => exact h
  | cons r rs ih => exact ih (insertTypeRow db r) (hasTypeName_insertTypeRow db r n h)

lemma foldl_insert_mem_hasTypeName (rows : List (String × String)) (db : DB) :
    ∀ row ∈ rows, hasTypeName (rows.foldl insertTypeRow db) row.1 = true := by
  induction rows generalizing db with
  | nil => intro row hrow; cases hrow
  | cons r rs ih =>
    intro row hrow
    rcases List.mem_cons.mp hrow with heq | hmem
    · subst heq
      exact foldl_insert_hasTypeName rs (insertTypeRow db row) row.1
        (hasTypeName_insertTypeRow_self db row)
    · exact ih (insertTypeRow db r) row hmem

lemma foldl_insert_noop (rows : List (String × String)) (db : DB)
    (h : ∀ row ∈ rows, hasTypeName db row.1 = true) :
    rows.foldl insertTypeRow db = db := by
  induction rows with
  | nil => rfl
  | cons r rs ih =>
    have hr : insertTypeRow db r = db := insertTypeRow_noop db r (h r (List.mem_cons_self r rs))
    simp only [List.foldl_cons, hr]
    exact ih (fun row hrow => h row (List.mem_cons_of_mem r hrow))

/-- Re-running the catalog seed changes nothing: every seeded `type_name` is
present after one run, and `ON CONFLICT DO NOTHING` skips present names. -/
lemma runSchemaSeed_idem (db : DB) :
    runSchemaSeed (runSchemaSeed db) = runSchemaSeed db := by
  unfold runSchemaSeed
  exact foldl_insert_noop seedTypeRows (seedTypeRows.foldl insertTypeRow db)
    (foldl_insert_mem_hasTypeName seedTypeRows db)

/-! ### Claim theorems -/

/-- C9: catalog initialization is idempotent — one seeding run produces
exactly the 7 interaction types in schema order with no duplicates, any
number of further runs is a no-op on any state, and in particular iterating
the seed any number of additional times on the initialized store leaves it
exactly as after the first run. -/
theorem c9_catalog_idempotent :
    (∀ db : DB, runSchemaSeed (runSchemaSeed db) = runSchemaSeed db) ∧
    (∀ n : Nat, seedIter n initialDB = initialDB) ∧
    initialDB.interaction_types.map (fun t => t.type_name) =
      [("phone_call"), ("facetime_audio"), ("facetime_video"), ("sms"),
       ("imessage"), ("email"), ("calendar_meeting")] ∧
    (initialDB.interaction_types.map (fun t => t.type_name)).Nodup ∧
    initialDB.interaction_types.length = 7 := by
  refine ⟨runSchemaSeed_idem, ?_, by decide, by decide, by decide⟩
  intro n
  induction n with
  | zero => rfl
  | succ m ih =>
    show seedIter m (runSchemaSeed initialDB) = initialDB
    rw [show runSchemaSeed initialDB = initialDB from runSchemaSeed_idem emptyDB]
    exact ih

/-- C10: a `:limit` parameter that parses to 0 or is not numeric is not
rejected; the endpoint silently substitutes the default limit 10 and
answers with the 10 most recent interactions. -/
theorem c10_limit_default (db : DB) (s : String)
    (h : jsParseInt s = none ∨ jsParseInt s = some 0) :
    recentEndpoint db s = .ok (recentInteractions db 10) := by
  unfold recentEndpoint
  rcases h with h | h <;> simp [h]

/-- Witness for C10 at the concrete parameter string "0". -/
theorem c10_witness :
    (jsParseInt ("0") = none ∨ jsParseInt ("0") = some 0) ∧
    recentEndpoint initialDB ("0") = .ok (recentInteractions initialDB 10) :=
  ⟨Or.inr (by decide), c10_limit_default initialDB ("0") (Or.inr (by decide))⟩

/-- C4 (amended): the endpoint accepts no explicit occurrence timestamp — on
every successful request the persisted interaction's occurrence timestamp
is the transaction's `NOW()`, whatever the request carried. -/
theorem c4_occurrence_is_always_now (db : DB) (req : InteractionRequest) (now : Nat) :
    ∀ i ∈ recordResultRow db req now,
      i.timestamp = now ∧ i ∈ (applyRecord db req now).interactions := by
  intro i hi
  unfold recordResultRow at hi
  unfold applyRecord
  cases heq : recordInteraction db req now with
  | error e =>
    rw [heq] at hi
    cases hi
  | ok p =>
    obtain ⟨db2, j⟩ := p
    rw [heq] at hi
    have hji : j = i := by simpa using hi
    subst hji
    obtain ⟨h1, h2, _⟩ := recordInteraction_ok_facts db req now db2 j heq
    refine ⟨h1, ?_⟩
    rw [h2]
    simp

/-- Witness for C4's amended theorem: a request that carries an explicit
timestamp field of 5, issued at clock 10, persists occurrence timestamp 10. -/
theorem c4_witness :
    (recordResultRow initialDB (mkReq ("Alice") ("phone_call") none none none (some 5)) 10).all
      (fun i => decide (i.timestamp = 10)) = true := by
  have h := c4_occurrence_is_always_now initialDB
    (mkReq ("Alice") ("phone_call") none none none (some 5)) 10
  cases hr : recordResultRow initialDB
      (mkReq ("Alice") ("phone_call") none none none (some 5)) 10 with
  | none => rfl
  | some i =>
    have hi := h i (by rw [hr]; rfl)
    simp [Option.all, hi.1]

/-- C2: an unknown interaction type name makes the whole request fail with
the unknown-type error and roll back: the visible database is exactly the
one before the request, so no interaction row and no new contact row
survive. -/
theorem c2_unknown_type_rollback (db : DB) (req : InteractionRequest) (now : Nat)
    (hname : jsFalsyStr req.contact_name = false)
    (htype : jsFalsyStr req.interaction_type = false)
    (hmiss : db.interaction_types.all
      (fun t => !(t.type_name == req.interaction_type.getD "")) = true) :
    recordInteraction db req now =
      .error (.unknownInteractionType (req.interaction_type.getD "")) ∧
    applyRecord db req now = db := by
  have hfind : db.interaction_types.find?
      (fun t => t.type_name == req.interaction_type.getD "") = none := by
    rw [List.find?_eq_none]
    intro t ht
    have := List.all_eq_true.mp hmiss t ht
    simpa using this
  have hrec : recordInteraction db req now =
      .error (.unknownInteractionType (req.interaction_type.getD "")) := by
    unfold recordInteraction
    rw [if_neg (by simp [hname, htype])]
    cases hf : db.contacts.find? (fun c => c.name == req.contact_name.getD "") with
    | some c0 => simp only [hf, hfind]
    | none => simp only [hf, hfind]
  refine ⟨hrec, ?_⟩
  unfold applyRecord
  rw [hrec]

/-- Request used in the C2 witness: a new name with the catalog-free type
name carrier_pigeon. -/
def c2Req : InteractionRequest := mkReq ("Bob") ("carrier_pigeon") none none none none

/-- Witness for C2 on the freshly seeded store. -/
theorem c2_witness :
    jsFalsyStr c2Req.contact_name = false ∧
    jsFalsyStr c2Req.interaction_type = false ∧
    initialDB.interaction_types.all
      (fun t => !(t.type_name == c2Req.interaction_type.getD "")) = true ∧
    (recordInteraction initialDB c2Req 7 =
        .error (.unknownInteractionType (c2Req.interaction_type.getD "")) ∧
      applyRecord initialDB c2Req 7 = initialDB) :=
  ⟨by decide, by decide, by decide,
    c2_unknown_type_rollback initialDB c2Req 7 (by decide) (by decide) (by decide)⟩

instance (db : DB) : Decidable (lastInvariant db) := by
  unfold lastInvariant
  exact inferInstance

instance (db : DB) (now : Nat) : Decidable (timesLE db now) := by
  unfold timesLE
  exact inferInstance

lemma timesLE_mono (db : DB) (a b : Nat) (hab : a ≤ b) (h : timesLE db a) :
    timesLE db b :=
  fun i hi => le_trans (h i hi) hab

/-- One committed or rolled-back request preserves the derived-field
invariant, provided the clock is not behind any stored occurrence
timestamp. -/
lemma record_step_invariant (db : DB) (req : InteractionRequest) (now : Nat)
    (hinv : lastInvariant db) (hle : timesLE db now) :
    lastInvariant (applyRecord db req now) ∧ timesLE (applyRecord db req now) now := by
  unfold applyRecord
  cases heq : recordInteraction db req now with
  | error e => exact ⟨hinv, hle⟩
  | ok p =>
    obtain ⟨db', i⟩ := p
    obtain ⟨hts, hints, base, hcontacts, hbase⟩ :=
      recordInteraction_ok_facts db req now db' i heq
    show lastInvariant db' ∧ timesLE db' now
    constructor
    · intro c' hc'
      rw [hcontacts] at hc'
      obtain ⟨c, hc, rfl⟩ := List.mem_map.mp hc'
      unfold touchContact
      by_cases hid : (c.id == i.contact_id) = true
      · rw [if_pos hid]
        have hcid : c.id = i.contact_id := by simpa using hid
        show some now = maxOccurrence (contactInteractions db' c.id)
        unfold contactInteractions
        rw [hints, List.filter_append]
        have hfi : [i].filter (fun j => j.contact_id == c.id) = [i] := by
          simp [hcid]
        rw [hfi]
        unfold maxOccurrence
        rw [List.map_append]
        have hmapi : [i].map (fun j => j.timestamp) = [now] := by simp [hts]
        rw [hmapi]
        rw [max?_concat_of_le]
        intro y hy
        obtain ⟨j, hj, rfl⟩ := List.mem_map.mp hy
        exact hle j (List.mem_filter.mp hj).1
      · rw [if_neg hid]
        have hcne : c.id ≠ i.contact_id := fun hcc => hid (by simp [hcc])
        have hcdb := hbase c hc hcne
        have hgoal := hinv c hcdb
        unfold contactInteractions at hgoal ⊢
        rw [hints, List.filter_append]
        have hnil : [i].filter (fun j => j.contact_id == c.id) = [] := by
          simp [beq_iff_eq]
          exact Ne.symm hcne
        rw [hnil, List.append_nil]
        exact hgoal
    · intro j hj
      rw [hints] at hj
      rcases List.mem_append.mp hj with hold | hnew
      · exact hle j hold
      · simp only [List.mem_singleton] at hnew
        rw [hnew]
        exact le_of_eq hts

lemma nowsMono_cons_zero (l : List Nat) (h : nowsMono l = true) :
    nowsMono (0 :: l) = true := by
  cases l with
  | nil => rfl
  | cons a r => simp [nowsMono, h]

/-- Running any monotone-clock sequence of requests from an invariant state
keeps the invariant. -/
lemma runAll_invariant : ∀ (ops : List (InteractionRequest × Nat)) (db : DB) (t0 : Nat),
    lastInvariant db → timesLE db t0 → nowsMono (t0 :: ops.map Prod.snd) = true →
    lastInvariant (runAll db ops)
  | [], db, _, hinv, _, _ => hinv
  | (r, t) :: rest, db, t0, hinv, hle, hmono => by
    have hmono2 : t0 ≤ t ∧ nowsMono (t :: rest.map Prod.snd) = true := by
      have hm : nowsMono (t0 :: t :: rest.map Prod.snd) = true := by
        simpa using hmono
      unfold nowsMono at hm
      simpa using hm
    have hle2 : timesLE db t := timesLE_mono db t0 t hmono2.1 hle
    have hstep := record_step_invariant db r t hinv hle2
    show lastInvariant (runAll (applyRecord db r t) rest)
    exact runAll_invariant rest (applyRecord db r t) t hstep.1 hstep.2 hmono2.2

/-- C1: after any wall-clock-ordered sequence of record requests against the
freshly initialized store, every contact's derived last-interaction
timestamp equals the maximum occurrence timestamp among its interactions
(NULL when it has none). -/
theorem c1_derived_last_equals_max (ops : List (InteractionRequest × Nat))
    (hmono : nowsMono (ops.map Prod.snd) = true) :
    lastInvariant (runAll initialDB ops) := by
  apply runAll_invariant ops initialDB 0
  · decide
  · decide
  · exact nowsMono_cons_zero _ hmono

/-- The C1 witness scenario: three interactions for the same contact at
clock values 1 < 2 < 3. -/
def c1Ops : List (InteractionRequest × Nat) :=
  [(mkReq ("Alice") ("phone_call") none none none none, 1),
   (mkReq ("Alice") ("sms") none none none none, 2),
   (mkReq ("Alice") ("imessage") none none none none, 3)]

/-- Witness for C1: recording at occurrence times 1, 2, 3 leaves the single
contact with derived timestamp 3, the maximum. -/
theorem c1_witness :
    nowsMono (c1Ops.map Prod.snd) = true ∧
    lastInvariant (runAll initialDB c1Ops) ∧
    (runAll initialDB c1Ops).contacts.map (fun c => c.last_interaction_date) =
      [some 3] :=
  ⟨by decide, c1_derived_last_equals_max c1Ops (by decide), by decide⟩

/-- A committed request determines the visible database. -/
lemma applyRecord_of_ok (db db2 : DB) (req : InteractionRequest) (now : Nat)
    (i : Interaction) (h : recordInteraction db req now = .ok (db2, i)) :
    applyRecord db req now = db2 := by
  unfold applyRecord
  rw [h]

/-- A committed request determines the returned interaction row. -/
lemma recordResultRow_of_ok (db db2 : DB) (req : InteractionRequest) (now : Nat)
    (i : Interaction) (h : recordInteraction db req now = .ok (db2, i)) :
    recordResultRow db req now = some i := by
  unfold recordResultRow
  rw [h]

/-- Exact result of a request whose contact name resolves to an existing
contact and whose type name is in the catalog. -/
lemma recordInteraction_found_eq (db : DB) (req : InteractionRequest) (now : Nat)
    (c0 : Contact) (t0 : InteractionType)
    (hcond : (jsFalsyStr req.contact_name || jsFalsyStr req.interaction_type) = false)
    (hf : db.contacts.find? (fun c => c.name == req.contact_name.getD "") = some c0)
    (ht : db.interaction_types.find?
      (fun t => t.type_name == req.interaction_type.getD "") = some t0) :
    recordInteraction db req now = .ok (
      { db with
        contacts := db.contacts.map (touchContact c0.id now),
        interactions := db.interactions ++
          [({ id := db.next_interaction_id, contact_id := c0.id,
              interaction_type_id := t0.id, direction := jsOrNullStr req.direction,
              timestamp := now, duration_seconds := jsOrNullInt req.duration_seconds,
              subject := jsOrNullStr req.subject, notes := none,
              created_at := now } : Interaction)],
        next_interaction_id := db.next_interaction_id + 1 },
      { id := db.next_interaction_id, contact_id := c0.id,
        interaction_type_id := t0.id, direction := jsOrNullStr req.direction,
        timestamp := now, duration_seconds := jsOrNullInt req.duration_seconds,
        subject := jsOrNullStr req.subject, notes := none, created_at := now }) := by
  unfold recordInteraction
  rw [if_neg (by simp [hcond])]
  simp only [hf, ht]

/-- The contact row freshly inserted by the resolver for an unknown name
(server lines 164-168), before the last-interaction stamp. -/
def freshContact (db : DB) (cname : String) (now : Nat) : Contact :=
  { id := db.next_contact_id, name := cname, phone_number := none,
    email := none, relationship_type := some ("unknown"),
    last_interaction_date := none, created_at := now, updated_at := now }

/-- Exact result of a request whose contact name matches no existing contact
and whose type name is in the catalog: a fresh contact is inserted and then
stamped. -/
lemma recordInteraction_create_eq (db : DB) (req : InteractionRequest) (now : Nat)
    (t0 : InteractionType)
    (hcond : (jsFalsyStr req.contact_name || jsFalsyStr req.interaction_type) = false)
    (hf : db.contacts.find? (fun c => c.name == req.contact_name.getD "") = none)
    (ht : db.interaction_types.find?
      (fun t => t.type_name == req.interaction_type.getD "") = some t0) :
    recordInteraction db req now = .ok (
      { db with
        contacts := (db.contacts ++
            [freshContact db (req.contact_name.getD "") now]).map
          (touchContact db.next_contact_id now),
        interactions := db.interactions ++
          [({ id := db.next_interaction_id, contact_id := db.next_contact_id,
              interaction_type_id := t0.id, direction := jsOrNullStr req.direction,
              timestamp := now, duration_seconds := jsOrNullInt req.duration_seconds,
              subject := jsOrNullStr req.subject, notes := none,
              created_at := now } : Interaction)],
        next_contact_id := db.next_contact_id + 1,
        next_interaction_id := db.next_interaction_id + 1 },
      { id := db.next_interaction_id, contact_id := db.next_contact_id,
        interaction_type_id := t0.id, direction := jsOrNullStr req.direction,
        timestamp := now, duration_seconds := jsOrNullInt req.duration_seconds,
        subject := jsOrNullStr req.subject, notes := none, created_at := now }) := by
  unfold recordInteraction
  rw [if_neg (by simp [hcond])]
  simp only [hf, ht]
  rfl

/-- Stamping a list of contacts whose ids all differ from the stamped id is
the identity. -/
lemma map_touchContact_id (l : List Contact) (cid now : Nat)
    (h : l.all (fun c => !(c.id == cid)) = true) :
    l.map (touchContact cid now) = l := by
  apply map_id_of_eq
  intro c hc
  have hne := List.all_eq_true.mp h c hc
  have hfc : (c.id == cid) = false := by simpa using hne
  unfold touchContact
  simp [hfc]

/-- Stamping never changes a contact name, phone, email or relationship
field. -/
lemma map_touchContact_proj (l : List Contact) (cid now : Nat) :
    (l.map (touchContact cid now)).map
      (fun c => (c.name, c.phone_number, c.email, c.relationship_type)) =
    l.map (fun c => (c.name, c.phone_number, c.email, c.relationship_type)) := by
  rw [List.map_map]
  apply List.map_congr_left
  intro c _
  by_cases h : c.id = cid
  · simp [touchContact, Function.comp, h]
  · simp [touchContact, Function.comp, beq_iff_eq, h]

/-- The stamped form of a freshly created contact. -/
def stampedContact (db : DB) (n : String) (now : Nat) : Contact :=
  { id := db.next_contact_id, name := n, phone_number := none,
    email := none, relationship_type := some ("unknown"),
    last_interaction_date := some now, created_at := now, updated_at := now }

/-- C3: recording for a fresh name creates exactly one contact, with
relationship category unknown and null phone/email; a second request with
the same name resolves to the same contact id, creates no duplicate, and
leaves name, phone, email and relationship untouched. -/
theorem c3_contact_resolution (db : DB) (n itype : String)
    (d1 d2 : Option String) (u1 u2 : Option Int) (s1 s2 : Option String)
    (ts1 ts2 : Option Nat) (now1 now2 : Nat)
    (hn : (n == "") = false) (hit : (itype == "") = false)
    (hnew : db.contacts.all (fun c => !(c.name == n)) = true)
    (hfresh : db.contacts.all (fun c => !(c.id == db.next_contact_id)) = true)
    (htype : (db.interaction_types.find?
      (fun t => t.type_name == itype)).isSome = true) :
    (applyRecord db (mkReq n itype d1 u1 s1 ts1) now1).contacts =
      db.contacts ++ [stampedContact db n now1] ∧
    (recordResultRow (applyRecord db (mkReq n itype d1 u1 s1 ts1) now1)
        (mkReq n itype d2 u2 s2 ts2) now2).map (fun i => i.contact_id) =
      some db.next_contact_id ∧
    (applyRecord (applyRecord db (mkReq n itype d1 u1 s1 ts1) now1)
        (mkReq n itype d2 u2 s2 ts2) now2).contacts.map
        (fun c => (c.name, c.phone_number, c.email, c.relationship_type)) =
      (applyRecord db (mkReq n itype d1 u1 s1 ts1) now1).contacts.map
        (fun c => (c.name, c.phone_number, c.email, c.relationship_type)) ∧
    (applyRecord (applyRecord db (mkReq n itype d1 u1 s1 ts1) now1)
        (mkReq n itype d2 u2 s2 ts2) now2).contacts.length =
      db.contacts.length + 1 := by
  obtain ⟨t0, ht0⟩ := Option.isSome_iff_exists.mp htype
  have hcond1 : (jsFalsyStr (mkReq n itype d1 u1 s1 ts1).contact_name ||
      jsFalsyStr (mkReq n itype d1 u1 s1 ts1).interaction_type) = false := by
    simp [mkReq, jsFalsyStr, hn, hit]
  have hcond2 : (jsFalsyStr (mkReq n itype d2 u2 s2 ts2).contact_name ||
      jsFalsyStr (mkReq n itype d2 u2 s2 ts2).interaction_type) = false := by
    simp [mkReq, jsFalsyStr, hn, hit]
  have hfindn : db.contacts.find?
      (fun c => c.name == (mkReq n itype d1 u1 s1 ts1).contact_name.getD "") = none := by
    rw [List.find?_eq_none]
    intro c hc
    have := List.all_eq_true.mp hnew c hc
    simpa [mkReq] using this
  have hrec1 := recordInteraction_create_eq db (mkReq n itype d1 u1 s1 ts1) now1 t0
    hcond1 hfindn (by simpa [mkReq] using ht0)
  have happ1 := applyRecord_of_ok _ _ _ _ _ hrec1
  have hstamp : ((db.contacts ++
      [freshContact db ((mkReq n itype d1 u1 s1 ts1).contact_name.getD "") now1]).map
        (touchContact db.next_contact_id now1)) =
      db.contacts ++ [stampedContact db n now1] := by
    rw [List.map_append, map_touchContact_id db.contacts db.next_contact_id now1 hfresh]
    simp [mkReq, freshContact, stampedContact, touchContact]
  have h1 : (applyRecord db (mkReq n itype d1 u1 s1 ts1) now1).contacts =
      db.contacts ++ [stampedContact db n now1] := by
    rw [happ1]
    exact hstamp
  have htypes1 : (applyRecord db (mkReq n itype d1 u1 s1 ts1) now1).interaction_types =
      db.interaction_types := by
    rw [happ1]
  have hnext1 : (applyRecord db (mkReq n itype d1 u1 s1 ts1) now1).next_contact_id =
      db.next_contact_id + 1 := by
    rw [happ1]
  have hfind2 : (applyRecord db (mkReq n itype d1 u1 s1 ts1) now1).contacts.find?
      (fun c => c.name == (mkReq n itype d2 u2 s2 ts2).contact_name.getD "") =
      some (stampedContact db n now1) := by
    rw [h1, List.find?_append]
    have hnone : db.contacts.find?
        (fun c => c.name == (mkReq n itype d2 u2 s2 ts2).contact_name.getD "") = none := by
      rw [List.find?_eq_none]
      intro c hc
      have := List.all_eq_true.mp hnew c hc
      simpa [mkReq] using this
    rw [hnone]
    simp [mkReq, stampedContact]
  have hrec2 := recordInteraction_found_eq
    (applyRecord db (mkReq n itype d1 u1 s1 ts1) now1)
    (mkReq n itype d2 u2 s2 ts2) now2 (stampedContact db n now1) t0
    hcond2 hfind2 (by rw [htypes1]; simpa [mkReq] using ht0)
  have happ2 := applyRecord_of_ok _ _ _ _ _ hrec2
  have hrow2 := recordResultRow_of_ok _ _ _ _ _ hrec2
  refine ⟨h1, ?_, ?_, ?_⟩
  · rw [hrow2]
    rfl
  · rw [happ2]
    show ((applyRecord db (mkReq n itype d1 u1 s1 ts1) now1).contacts.map
        (touchContact (stampedContact db n now1).id now2)).map
        (fun c => (c.name, c.phone_number, c.email, c.relationship_type)) = _
    rw [map_touchContact_proj]
  · rw [happ2]
    show ((applyRecord db (mkReq n itype d1 u1 s1 ts1) now1).contacts.map
        (touchContact (stampedContact db n now1).id now2)).length =
      db.contacts.length + 1
    rw [List.length_map, h1]
    simp

/-- Witness for C3: Alice is recorded twice against the seeded store. -/
theorem c3_witness :
    ((("Alice" : String) == "") = false) ∧
    ((("phone_call" : String) == "") = false) ∧
    initialDB.contacts.all (fun c => !(c.name == ("Alice"))) = true ∧
    initialDB.contacts.all (fun c => !(c.id == initialDB.next_contact_id)) = true ∧
    (initialDB.interaction_types.find?
      (fun t => t.type_name == ("phone_call"))).isSome = true ∧
    (applyRecord initialDB (mkReq ("Alice") ("phone_call") none none none none) 1).contacts =
      initialDB.contacts ++ [stampedContact initialDB ("Alice") 1] ∧
    (recordResultRow
        (applyRecord initialDB (mkReq ("Alice") ("phone_call") none none none none) 1)
        (mkReq ("Alice") ("phone_call") none none none none) 2).map
      (fun i => i.contact_id) = some initialDB.next_contact_id := by
  have h := c3_contact_resolution initialDB ("Alice") ("phone_call")
    none none none none none none none none 1 2
    (by decide) (by decide) (by decide) (by decide) (by decide)
  exact ⟨by decide, by decide, by decide, by decide, by decide, h.1, h.2.1⟩

/-- C4 counterexample to the claim as stated: supplying occurrence timestamp
5 at clock 10 does not persist 5 — the stored occurrence timestamp is 10. -/
theorem c4_counterexample :
    (recordResultRow initialDB (mkReq ("Alice") ("phone_call") none none none (some 5)) 10).map
        (fun i => i.timestamp) ≠ some 5 ∧
    (recordResultRow initialDB (mkReq ("Alice") ("phone_call") none none none (some 5)) 10).map
        (fun i => i.timestamp) = some 10 := by
  constructor
  · decide
  · decide

/-! ### Ordering facts for the SQL ORDER BY relations -/

lemma lastAscNullsFirst_total (a b : Option Nat) :
    lastAscNullsFirst a b = true ∨ lastAscNullsFirst b a = true := by
  cases a <;> cases b <;> first
    | (simp [lastAscNullsFirst]; omega)
    | simp [lastAscNullsFirst]

lemma lastAscNullsFirst_trans (a b c : Option Nat)
    (h1 : lastAscNullsFirst a b = true) (h2 : lastAscNullsFirst b c = true) :
    lastAscNullsFirst a c = true := by
  cases a <;> cases b <;> cases c <;> first
    | (simp [lastAscNullsFirst] at *; omega)
    | simp [lastAscNullsFirst] at *

instance : IsTotal OverdueRow overdueRowLE :=
  ⟨fun x y => lastAscNullsFirst_total x.last_interaction_date y.last_interaction_date⟩

instance : IsTrans OverdueRow overdueRowLE :=
  ⟨fun _ _ _ h1 h2 => lastAscNullsFirst_trans _ _ _ h1 h2⟩

instance : IsTotal RecentRow recentGE :=
  ⟨fun x y => Nat.le_total y.timestamp x.timestamp⟩

instance : IsTrans RecentRow recentGE :=
  ⟨fun _ _ _ h1 h2 => le_trans h2 h1⟩

/-- The overdue WHERE condition depends only on the last-interaction field. -/
lemma overdueCond_eq_of_last (days now : Nat) (c1 c2 : Contact)
    (h : c1.last_interaction_date = c2.last_interaction_date) :
    overdueCond days now c1 = overdueCond days now c2 := by
  unfold overdueCond
  rw [h]

/-- A never-contacted contact satisfies the overdue condition at every
threshold. -/
lemma overdueCond_of_none (days now : Nat) (c : Contact)
    (h : c.last_interaction_date = none) : overdueCond days now c = true := by
  unfold overdueCond
  rw [h]

/-- C6: the overdue listing holds exactly the contacts whose last interaction
is NULL or strictly older than `now` minus the threshold, each annotated
with a days-since value that is NULL exactly for never-contacted contacts,
ordered by last interaction ascending with NULLs first; every contact with
zero interactions appears at every threshold. -/
theorem c6_overdue (db : DB) (days now : Nat) (hinv : lastInvariantB db = true) :
    List.Perm (overdueContacts db days now)
      ((db.contacts.filter (overdueCond days now)).map (overdueRowOf now)) ∧
    List.Sorted overdueRowLE (overdueContacts db days now) ∧
    (∀ c ∈ db.contacts,
      (overdueRowOf now c ∈ overdueContacts db days now ↔
        overdueCond days now c = true)) ∧
    (∀ r ∈ overdueContacts db days now,
      r.days_since_contact.isNone = r.last_interaction_date.isNone) ∧
    (∀ c ∈ db.contacts, contactInteractions db c.id = [] →
      overdueRowOf now c ∈ overdueContacts db days now) := by
  have hmemiff : ∀ c ∈ db.contacts,
      (overdueRowOf now c ∈ overdueContacts db days now ↔
        overdueCond days now c = true) := by
    intro c hc
    constructor
    · intro hmem
      unfold overdueContacts at hmem
      rw [List.mem_insertionSort] at hmem
      obtain ⟨c2, hc2, heq⟩ := List.mem_map.mp hmem
      have hc2f := List.mem_filter.mp hc2
      have hlast : c2.last_interaction_date = c.last_interaction_date := by
        have hl := congrArg (fun r => r.last_interaction_date) heq
        simpa [overdueRowOf] using hl
      rw [← overdueCond_eq_of_last days now c2 c hlast]
      exact hc2f.2
    · intro hcond
      unfold overdueContacts
      rw [List.mem_insertionSort]
      exact List.mem_map.mpr ⟨c, List.mem_filter.mpr ⟨hc, hcond⟩, rfl⟩
  refine ⟨List.perm_insertionSort _ _, List.sorted_insertionSort _ _, hmemiff, ?_, ?_⟩
  · intro r hr
    unfold overdueContacts at hr
    rw [List.mem_insertionSort] at hr
    obtain ⟨c2, _, heq⟩ := List.mem_map.mp hr
    rw [← heq]
    cases h2 : c2.last_interaction_date <;> simp [overdueRowOf, h2]
  · intro c hc hzero
    apply (hmemiff c hc).mpr
    have hinvc := List.all_eq_true.mp hinv c hc
    have hlast : c.last_interaction_date = none := by
      rw [hzero] at hinvc
      simpa [maxOccurrence] using hinvc
    exact overdueCond_of_none days now c hlast

/-- Concrete store for the C6 witness: Bob last contacted at time 0 with one
interaction, Lisa never contacted. -/
def c6DB : DB :=
  { contacts :=
      [({ id := 1, name := ("Bob"), phone_number := none, email := none,
          relationship_type := some ("friend"), last_interaction_date := some 0,
          created_at := 0, updated_at := 0 } : Contact),
       ({ id := 2, name := ("Lisa"), phone_number := none, email := none,
          relationship_type := some ("friend"), last_interaction_date := none,
          created_at := 0, updated_at := 0 } : Contact)],
    interaction_types := initialDB.interaction_types,
    interactions :=
      [({ id := 1, contact_id := 1, interaction_type_id := 1,
          direction := some ("outgoing"), timestamp := 0,
          duration_seconds := some 600, subject := none, notes := none,
          created_at := 0 } : Interaction)],
    next_contact_id := 3, next_type_id := 8, next_interaction_id := 2 }

/-- Witness for C6 at threshold 30 days and clock 8640000 (day 100): the
never-contacted contact sorts first and Bob follows. -/
theorem c6_witness :
    lastInvariantB c6DB = true ∧
    (List.Perm (overdueContacts c6DB 30 8640000)
      ((c6DB.contacts.filter (overdueCond 30 8640000)).map (overdueRowOf 8640000)) ∧
    List.Sorted overdueRowLE (overdueContacts c6DB 30 8640000) ∧
    (∀ c ∈ c6DB.contacts,
      (overdueRowOf 8640000 c ∈ overdueContacts c6DB 30 8640000 ↔
        overdueCond 30 8640000 c = true)) ∧
    (∀ r ∈ overdueContacts c6DB 30 8640000,
      r.days_since_contact.isNone = r.last_interaction_date.isNone) ∧
    (∀ c ∈ c6DB.contacts, contactInteractions c6DB c.id = [] →
      overdueRowOf 8640000 c ∈ overdueContacts c6DB 30 8640000)) ∧
    (overdueContacts c6DB 30 8640000).map (fun r => r.name) = [("Lisa"), ("Bob")] ∧
    (overdueContacts c6DB 30 8640000).map (fun r => r.days_since_contact) =
      [none, some 100] :=
  ⟨by decide, c6_overdue c6DB 30 8640000 (by decide), by decide, by decide⟩

/-- Every interaction of the store resolves both its contact and its type
(the two inner JOINs of the recent query lose no rows). -/
def dbJoinable (db : DB) : Bool :=
  db.interactions.all (fun i => (recentRowOf db i).isSome)

lemma length_filterMap_of_isSome {α β : Type} (f : α → Option β) :
    ∀ l : List α, (∀ x ∈ l, (f x).isSome = true) → (l.filterMap f).length = l.length
  | [], _ => rfl
  | x :: xs, h => by
    obtain ⟨b, hb⟩ := Option.isSome_iff_exists.mp (h x (List.mem_cons_self x xs))
    rw [List.filterMap_cons, hb]
    simp only [List.length_cons]
    rw [length_filterMap_of_isSome f xs
      (fun y hy => h y (List.mem_cons_of_mem x hy))]

/-- C7 (amended): the recent feed returns the `limit` interactions with the
largest occurrence timestamps (all of them when fewer exist), in descending
occurrence order, each annotated with the owning contact name and the
type's machine name `type_name`. -/
theorem c7_recent_feed (db : DB) (limit : Nat) (hwf : dbJoinable db = true) :
    (recentInteractions db limit).length = min limit db.interactions.length ∧
    List.Sorted recentGE (recentInteractions db limit) ∧
    (∀ r ∈ recentInteractions db limit, ∃ i ∈ db.interactions,
      ∃ c, db.contacts.find? (fun c0 => c0.id == i.contact_id) = some c ∧
      ∃ t, db.interaction_types.find?
          (fun t0 => t0.id == i.interaction_type_id) = some t ∧
        r.id = i.id ∧ r.timestamp = i.timestamp ∧
        r.contact_name = c.name ∧ r.type_name = t.type_name) ∧
    (∀ r ∈ recentInteractions db limit, ∀ s ∈ (recentAll db).drop limit,
      s.timestamp ≤ r.timestamp) := by
  have hlenAll : (recentAll db).length = db.interactions.length := by
    unfold recentAll
    rw [List.length_insertionSort]
    exact length_filterMap_of_isSome (recentRowOf db) db.interactions
      (List.all_eq_true.mp hwf)
  have hsortedAll : List.Sorted recentGE (recentAll db) :=
    List.sorted_insertionSort recentGE _
  refine ⟨?_, ?_, ?_, ?_⟩
  · unfold recentInteractions
    rw [List.length_take, hlenAll]
  · exact hsortedAll.sublist (List.take_sublist limit (recentAll db))
  · intro r hr
    have hr2 : r ∈ recentAll db := List.take_subset limit (recentAll db) hr
    unfold recentAll at hr2
    rw [List.mem_insertionSort] at hr2
    obtain ⟨i, hi, hrow⟩ := List.mem_filterMap.mp hr2
    refine ⟨i, hi, ?_⟩
    unfold recentRowOf at hrow
    cases hfc : db.contacts.find? (fun c0 => c0.id == i.contact_id) with
    | none => rw [hfc] at hrow; cases hrow
    | some c =>
      cases hft : db.interaction_types.find?
          (fun t0 => t0.id == i.interaction_type_id) with
      | none => rw [hfc, hft] at hrow; cases hrow
      | some t =>
        rw [hfc, hft] at hrow
        refine ⟨c, rfl, t, rfl, ?_⟩
        have hr3 := Option.some.inj hrow
        rw [← hr3]
        exact ⟨rfl, rfl, rfl, rfl⟩
  · intro r hr s hs
    have hdecomp := List.take_append_drop limit (recentAll db)
    have hpw : List.Pairwise recentGE
        ((recentAll db).take limit ++ (recentAll db).drop limit) := by
      rw [hdecomp]
      exact hsortedAll
    exact (List.pairwise_append.mp hpw).2.2 r hr s hs

/-- Concrete store for C7: one contact, three phone calls at days 1, 5 and 9
before the witness clock. -/
def c7DB : DB :=
  { contacts :=
      [({ id := 1, name := ("Mom"), phone_number := some ("555-0101"),
          email := none, relationship_type := some ("family"),
          last_interaction_date := some 777600, created_at := 0,
          updated_at := 777600 } : Contact)],
    interaction_types := initialDB.interaction_types,
    interactions :=
      [({ id := 1, contact_id := 1, interaction_type_id := 1,
          direction := some ("incoming"), timestamp := 86400,
          duration_seconds := some 900, subject := none, notes := none,
          created_at := 86400 } : Interaction),
       ({ id := 2, contact_id := 1, interaction_type_id := 1,
          direction := some ("outgoing"), timestamp := 777600,
          duration_seconds := some 1200, subject := none, notes := none,
          created_at := 777600 } : Interaction),
       ({ id := 3, contact_id := 1, interaction_type_id := 1,
          direction := some ("outgoing"), timestamp := 432000,
          duration_seconds := some 600, subject := none, notes := none,
          created_at := 432000 } : Interaction)],
    next_contact_id := 2, next_type_id := 8, next_interaction_id := 4 }

/-- Witness for C7's amended theorem: limit 2 over occurrence times
{86400, 432000, 777600} yields exactly the two most recent, descending. -/
theorem c7_witness :
    dbJoinable c7DB = true ∧
    ((recentInteractions c7DB 2).length = min 2 c7DB.interactions.length ∧
    List.Sorted recentGE (recentInteractions c7DB 2) ∧
    (∀ r ∈ recentInteractions c7DB 2, ∃ i ∈ c7DB.interactions,
      ∃ c, c7DB.contacts.find? (fun c0 => c0.id == i.contact_id) = some c ∧
      ∃ t, c7DB.interaction_types.find?
          (fun t0 => t0.id == i.interaction_type_id) = some t ∧
        r.id = i.id ∧ r.timestamp = i.timestamp ∧
        r.contact_name = c.name ∧ r.type_name = t.type_name) ∧
    (∀ r ∈ recentInteractions c7DB 2, ∀ s ∈ (recentAll c7DB).drop 2,
      s.timestamp ≤ r.timestamp)) ∧
    (recentInteractions c7DB 2).map (fun r => r.timestamp) = [777600, 432000] ∧
    (recentInteractions c7DB 2).map (fun r => r.contact_name) = [("Mom"), ("Mom")] :=
  ⟨by decide, c7_recent_feed c7DB 2 (by decide), by decide, by decide⟩

/-- C7 counterexample to the claim as stated: the rows are annotated with
the type's machine name, not its human description — for the phone_call
type the annotation reads phone_call while the description is Voice call. -/
theorem c7_counterexample :
    (recentInteractions c7DB 2).map (fun r => some r.type_name) ≠
      (recentInteractions c7DB 2).map (fun r =>
        ((c7DB.interaction_types.find?
          (fun t => t.type_name == r.type_name)).map
            (fun t => t.description)).getD none) ∧
    (recentInteractions c7DB 2).map (fun r => r.type_name) =
      [("phone_call"), ("phone_call")] ∧
    (recentInteractions c7DB 2).map (fun r =>
        ((c7DB.interaction_types.find?
          (fun t => t.type_name == r.type_name)).map
            (fun t => t.description)).getD none) =
      [some ("Voice call"), some ("Voice call")] := by
  refine ⟨by decide, by decide, by decide⟩

/-- Concrete store for C5 and C8: Bob with two interactions ten days apart. -/
def c5DB : DB :=
  { contacts :=
      [({ id := 1, name := ("Bob"), phone_number := none, email := none,
          relationship_type := some ("friend"),
          last_interaction_date := some 864000, created_at := 0,
          updated_at := 864000 } : Contact)],
    interaction_types := initialDB.interaction_types,
    interactions :=
      [({ id := 1, contact_id := 1, interaction_type_id := 1,
          direction := some ("outgoing"), timestamp := 0,
          duration_seconds := some 600, subject := none, notes := none,
          created_at := 0 } : Interaction),
       ({ id := 2, contact_id := 1, interaction_type_id := 1,
          direction := some ("incoming"), timestamp := 864000,
          duration_seconds := none, subject := none, notes := none,
          created_at := 864000 } : Interaction)],
    next_contact_id := 2, next_type_id := 8, next_interaction_id := 3 }

/-- C5 (code bug): the stats SELECT list nests aggregate calls, so PostgreSQL
rejects the query during parse analysis and the endpoint reports the SQL
error for every store and id — including the contact with two interactions,
for which the documented average would be 10 days. -/
theorem c5_stats_always_errors :
    statsQueryOk = false ∧
    (∀ db : DB, ∀ cid : Nat, getContactStats db cid =
      .error (.sqlError ("aggregate function calls cannot be nested"))) ∧
    getContactStats c5DB 1 =
      .error (.sqlError ("aggregate function calls cannot be nested")) := by
  have hq : statsQueryOk = false := by decide
  refine ⟨hq, fun db cid => ?_, by decide⟩
  unfold getContactStats
  rw [hq]
  simp

/-- C8: details answers 404 for a missing id and the list endpoints return
empty collections rather than failing; but stats never reaches its 404
branch — the rejected aggregate query makes it fail with the SQL error for
every id, existing or not. -/
theorem c8_notfound_discipline :
    getContactDetails c5DB 999 = .error (.notFound ("Contact not found")) ∧
    (∀ db : DB, ∀ cid : Nat,
      getContactStats db cid ≠ .error (.notFound ("Contact not found"))) ∧
    getContactStats c5DB 999 =
      .error (.sqlError ("aggregate function calls cannot be nested")) ∧
    listContacts initialDB = [] ∧
    overdueContacts initialDB 30 8640000 = [] ∧
    recentInteractions initialDB 10 = [] ∧
    recentEndpoint initialDB ("10") = .ok [] := by
  refine ⟨by decide, ?_, by decide, by decide, by decide, by decide, by decide⟩
  intro db cid
  have hq : statsQueryOk = false := by decide
  unfold getContactStats
  rw [hq]
  simp

end CRM
